import Mathlib

/-!
Verification of the image-corpus validation routine of `ml-trainer/train.py`.

The script scans a hardcoded directory for image-suffixed filenames, tries to
open each candidate with an image library, and prints a report.  We embed the
script shallowly: the filesystem and the ML runtime are modelled as explicit
environments recording the outcome of each external call, and the script's
functions become pure Lean functions over those environments returning the
list of printed lines (and, for the scanner, the structured data the loop
computes).
-/

namespace MLTrainer

/-- `TRAINING_IMAGES_DIR` from `train.py`: the hardcoded directory path. -/
def TRAINING_IMAGES_DIR : String := "/app/training_images"

/-- `valid_extensions` from `list_training_images`. -/
def valid_extensions : List String := [".png", ".jpg", ".jpeg", ".gif", ".bmp", ".tiff"]

/-- Python `str.lower` on one character (ASCII case mapping, which covers
every character the suffix comparison can distinguish). -/
def lowerChar (c : Char) : Char := c.toLower

/-- Python `str.lower`: lowercase every character of the string. -/
def strLower (s : String) : String := String.mk (s.data.map lowerChar)

/-- Python `str.endswith`: the second string is a suffix of the first. -/
def strEndsWith (s post : String) : Bool := List.isSuffixOf post.data s.data

/-- `item.lower().endswith(valid_extensions)`: the classification test applied
to each directory entry (`endswith` with a tuple succeeds when any suffix
matches). -/
def isImageFile (item : String) : Bool :=
  valid_extensions.any (fun ext => strEndsWith (strLower item) ext)

/-- `os.path.join(a, b)` for the calls the script makes: `a` has no trailing
slash and `b` is a bare filename from `os.listdir`, so join is concatenation
with a separator. -/
def osPathJoin (a b : String) : String := a ++ "/" ++ b

/-- Outcome state of the filesystem for the one directory the script reads:
whether `os.path.exists(TRAINING_IMAGES_DIR)` holds, what `os.listdir`
returns (or the message of the exception it raises), and what `Image.open`
does on each path (success, or the message of the exception it raises). -/
structure FileSystem where
  pathExists : Bool
  listdir : Except String (List String)
  openImage : String → Except String Unit

/-- Per retained entry: the filename, whether `Image.open` succeeded, and the
error message when it did not.  This is the data the loop body of
`list_training_images` computes for each entry it appends to `image_files`. -/
structure EntryResult where
  name : String
  openable : Bool
  errMsg : Option String
deriving DecidableEq, Repr

/-- Loop body of `list_training_images`: classify one entry by suffix; if
retained, attempt to open it and record the outcome. -/
def processEntry (openImage : String → Except String Unit) (item : String) :
    Option EntryResult :=
  if isImageFile item then
    some (match openImage (osPathJoin TRAINING_IMAGES_DIR item) with
          | Except.ok _ => ⟨item, true, none⟩
          | Except.error e => ⟨item, false, some e⟩)
  else none

/-- The whole loop of `list_training_images` over the listing. -/
def scanItems (openImage : String → Except String Unit) (items : List String) :
    List EntryResult :=
  items.filterMap (processEntry openImage)

/-- Result of one scan invocation: the directory is missing, the listing
itself raised, or the loop ran over the listing. -/
inductive ScanOutcome where
  | dirNotFound
  | listingFailed (msg : String)
  | ok (entries : List EntryResult)
deriving DecidableEq, Repr

/-- The scanning part of `list_training_images`: existence check, listing,
then the loop. -/
def scan (fs : FileSystem) : ScanOutcome :=
  if fs.pathExists then
    match fs.listdir with
    | Except.error e => ScanOutcome.listingFailed e
    | Except.ok items => ScanOutcome.ok (scanItems fs.openImage items)
  else ScanOutcome.dirNotFound

/-- Filenames found by a scan (the `image_files` list; empty when the scan
never built one). -/
def foundFiles : ScanOutcome → List String
  | ScanOutcome.ok entries => entries.map EntryResult.name
  | _ => []

/-- `len(image_files)` of a scan. -/
def foundCount (s : ScanOutcome) : Nat := (foundFiles s).length

/-- First printed line of `list_training_images`. -/
def headerLine : String := "Checking for images in: " ++ TRAINING_IMAGES_DIR

/-- The per-entry warning lines printed inside the loop, in loop order. -/
def warningLines (entries : List EntryResult) : List String :=
  entries.filterMap (fun ent =>
    ent.errMsg.map (fun m =>
      "  Warning: Could not open or process image " ++ ent.name ++ ": " ++ m))

/-- The summary printed after the loop: `Found n image(s):`, the first 10
names, a remainder note past 10; or the no-images line. -/
def summaryLines (image_files : List String) : List String :=
  if image_files.isEmpty then
    ["No image files found in the directory."]
  else
    ("Found " ++ toString image_files.length ++ " image(s):")
      :: (image_files.take 10).map (fun f => "  - " ++ f)
      ++ (if image_files.length > 10 then
            ["  ... and " ++ toString (image_files.length - 10) ++ " more."]
          else [])

/-- `list_training_images` as the list of lines it prints.  The function
catches every exception of its body, so it is total. -/
def list_training_images (fs : FileSystem) : List String :=
  headerLine ::
    match scan fs with
    | ScanOutcome.dirNotFound =>
        ["Error: Directory " ++ TRAINING_IMAGES_DIR ++ " does not exist."]
    | ScanOutcome.listingFailed e => ["Error listing images: " ++ e]
    | ScanOutcome.ok entries =>
        warningLines entries ++ summaryLines (entries.map EntryResult.name)

/-- A Python exception as the script can observe it: `check_gpu` distinguishes
`RuntimeError` (its `except` clause) from every other exception class. -/
inductive PyExc where
  | runtimeError (msg : String)
  | otherError (msg : String)
deriving DecidableEq, Repr

/-- Outcome state of the ML runtime: what `tf.config.list_physical_devices`
returns (GPUs identified by their `name`), what
`tf.config.experimental.set_memory_growth` does on each device, what
`tf.config.list_logical_devices` returns, and `tf.__version__`. -/
structure GpuEnv where
  physicalGpus : Except PyExc (List String)
  memGrowth : String → Except PyExc Unit
  logicalGpus : Except PyExc (List String)
  tfVersion : String

/-- The `for gpu in gpus: set_memory_growth(gpu, True)` loop: stops at the
first exception. -/
def setAllMemGrowth (m : String → Except PyExc Unit) : List String → Except PyExc Unit
  | [] => Except.ok ()
  | g :: gs =>
    match m g with
    | Except.ok _ => setAllMemGrowth m gs
    | Except.error e => Except.error e

/-- Body of the `try` block of `check_gpu`: set memory growth on every GPU,
list logical devices, print the device summary lines. -/
def checkGpuTry (env : GpuEnv) (gpus : List String) : Except PyExc (List String) :=
  match setAllMemGrowth env.memGrowth gpus with
  | Except.error e => Except.error e
  | Except.ok _ =>
    match env.logicalGpus with
    | Except.error e => Except.error e
    | Except.ok logical =>
      Except.ok
        (("TensorFlow: " ++ toString gpus.length ++ " Physical GPUs, "
            ++ toString logical.length ++ " Logical GPUs available.")
          :: gpus.enum.map (fun p => "  GPU " ++ toString p.1 ++ ": " ++ p.2))

/-- `check_gpu`: enumerate physical GPUs (outside any `try`, so an exception
there propagates), then run the `try` block, whose `except RuntimeError`
converts exactly the `RuntimeError`s into a printed message. -/
def check_gpu (env : GpuEnv) : Except PyExc (List String) :=
  match env.physicalGpus with
  | Except.error e => Except.error e
  | Except.ok gpus =>
    if gpus.isEmpty then
      Except.ok ["TensorFlow: No GPUs available. Training will run on CPU."]
    else
      match checkGpuTry env gpus with
      | Except.ok lines => Except.ok lines
      | Except.error (PyExc.runtimeError e) =>
          Except.ok ["Error setting memory growth: " ++ e]
      | Except.error e => Except.error e

/-- The placeholder lines printed at the end of `__main__`. -/
def placeholderLines : List String :=
  ["--- Placeholder Training Logic ---",
   "This is where your actual model training code would go.",
   "For example, loading data, preprocessing, defining a model, training, and saving."]

/-- The end-of-run message. -/
def finishedLine : String := "--- ML Trainer Script Finished ---"

/-- The `__main__` sequence: banner, `check_gpu`, `list_training_images`,
placeholder section, end-of-run message.  An uncaught exception aborts the
process, modelled by `Except.error`. -/
def main_script (env : GpuEnv) (fs : FileSystem) : Except PyExc (List String) :=
  match check_gpu env with
  | Except.error e => Except.error e
  | Except.ok gpuLines =>
    Except.ok
      (["--- ML Trainer Script Starting ---", "TensorFlow version: " ++ env.tfVersion]
        ++ gpuLines ++ list_training_images fs ++ placeholderLines ++ [finishedLine])

/-- An `Except PyExc` outcome that either succeeded or failed with a
`RuntimeError` (the one exception class `check_gpu` catches). -/
def okOrRuntime {α : Type} : Except PyExc α → Prop
  | Except.ok _ => True
  | Except.error (PyExc.runtimeError _) => True
  | Except.error (PyExc.otherError _) => False

/-- The run printed its lines and the last one is the end-of-run message. -/
def reachesFinish (r : Except PyExc (List String)) : Prop :=
  ∃ lines, r = Except.ok lines ∧ lines.getLast? = some finishedLine

/- ### Concrete fixtures used to witness the theorems -/

/-- A runtime whose GPU enumeration itself raises a non-`RuntimeError`. -/
def badGpuEnv : GpuEnv :=
  ⟨Except.error (PyExc.otherError "device enumeration failed"),
   fun _ => Except.ok (), Except.ok [], "2.16.1"⟩

/-- A runtime with one healthy GPU. -/
def okGpuEnv : GpuEnv :=
  ⟨Except.ok ["gpu0"], fun _ => Except.ok (), Except.ok ["gpu0"], "2.16.1"⟩

/-- An existing, empty training directory. -/
def emptyDirFs : FileSystem :=
  ⟨true, Except.ok [], fun _ => Except.ok ()⟩

/-- The training directory is missing. -/
def missingDirFs : FileSystem :=
  ⟨false, Except.ok [], fun _ => Except.ok ()⟩

/-- The directory exists but reading it raises. -/
def unreadableDirFs : FileSystem :=
  ⟨true, Except.error "Permission denied", fun _ => Except.ok ()⟩

/-- An existing directory holding no image-suffixed entries. -/
def noImagesFs : FileSystem :=
  ⟨true, Except.ok ["README.md", "labels.csv"], fun _ => Except.ok ()⟩

/-- Fifteen image-suffixed filenames, in listing order. -/
def fifteenItems : List String :=
  ["i01.png", "i02.png", "i03.png", "i04.png", "i05.png",
   "i06.png", "i07.png", "i08.png", "i09.png", "i10.png",
   "i11.png", "i12.png", "i13.png", "i14.png", "i15.png"]

/-- An existing directory with exactly fifteen image-suffixed entries. -/
def fifteenFs : FileSystem :=
  ⟨true, Except.ok fifteenItems, fun _ => Except.ok ()⟩

/-- Open outcome with one undecodable candidate, `broken.jpg`. -/
def brokenOpen (p : String) : Except String Unit :=
  if p = osPathJoin TRAINING_IMAGES_DIR "broken.jpg" then
    Except.error "cannot identify image file"
  else Except.ok ()

/-- An existing directory whose middle image candidate is undecodable. -/
def brokenFs : FileSystem :=
  ⟨true, Except.ok ["a.png", "broken.jpg", "b.png"], brokenOpen⟩

/-- The same directory contents as `permFsB`, listed in a different order. -/
def permFsA : FileSystem :=
  ⟨true, Except.ok ["b.png", "a.png"], fun _ => Except.ok ()⟩

/-- The same directory contents as `permFsA`, listed in a different order. -/
def permFsB : FileSystem :=
  ⟨true, Except.ok ["a.png", "b.png"], fun _ => Except.ok ()⟩

/-- Open outcome modelling a subdirectory named `sub.png`: opening it fails. -/
def subdirOpen (p : String) : Except String Unit :=
  if p = osPathJoin TRAINING_IMAGES_DIR "sub.png" then
    Except.error "IsADirectoryError"
  else Except.ok ()

/-- A mixed directory: one good image, one image-suffixed subdirectory, one
non-image entry. -/
def mixedFs : FileSystem :=
  ⟨true, Except.ok ["good.jpg", "sub.png", "doc.txt"], subdirOpen⟩

/- ### Helper lemmas about the embedded functions -/

theorem processEntry_not_image (o : String → Except String Unit) (item : String)
    (h : isImageFile item = false) : processEntry o item = none := by
  simp [processEntry, h]

theorem processEntry_ok (o : String → Except String Unit) (item : String)
    (h : isImageFile item = true)
    (ho : o (osPathJoin TRAINING_IMAGES_DIR item) = Except.ok ()) :
    processEntry o item = some ⟨item, true, none⟩ := by
  simp [processEntry, h, ho]

theorem processEntry_error (o : String → Except String Unit) (item e : String)
    (h : isImageFile item = true)
    (ho : o (osPathJoin TRAINING_IMAGES_DIR item) = Except.error e) :
    processEntry o item = some ⟨item, false, some e⟩ := by
  simp [processEntry, h, ho]

theorem scanItems_names (o : String → Except String Unit) (items : List String) :
    (scanItems o items).map EntryResult.name = items.filter (fun i => isImageFile i) := by
  induction items with
  | nil => rfl
  | cons x xs ih =>
    by_cases hx : isImageFile x = true
    · cases ho : o (osPathJoin TRAINING_IMAGES_DIR x) with
      | ok u =>
        cases u
        simp [scanItems, List.filterMap_cons, processEntry_ok o x hx ho, hx,
          List.filter_cons, scanItems] at ih ⊢
        exact ih
      | error e =>
        simp [scanItems, List.filterMap_cons, processEntry_error o x e hx ho, hx,
          List.filter_cons, scanItems] at ih ⊢
        exact ih
    · have hx' : isImageFile x = false := by simpa using hx
      simp [scanItems, List.filterMap_cons, processEntry_not_image o x hx', hx',
        List.filter_cons, scanItems] at ih ⊢
      exact ih

theorem scan_ok (fs : FileSystem) (items : List String)
    (hp : fs.pathExists = true) (hl : fs.listdir = Except.ok items) :
    scan fs = ScanOutcome.ok (scanItems fs.openImage items) := by
  simp [scan, hp, hl]

theorem mem_scanItems (o : String → Except String Unit) (items : List String)
    (ent : EntryResult) (h : ent ∈ scanItems o items) :
    ent.name ∈ items ∧ isImageFile ent.name = true ∧
      ((ent.openable = true ∧ ent.errMsg = none ∧
          o (osPathJoin TRAINING_IMAGES_DIR ent.name) = Except.ok ()) ∨
       (ent.openable = false ∧ ∃ e, ent.errMsg = some e ∧
          o (osPathJoin TRAINING_IMAGES_DIR ent.name) = Except.error e)) := by
  rw [scanItems] at h
  obtain ⟨item, hitem, hpe⟩ := List.mem_filterMap.mp h
  by_cases hx : isImageFile item = true
  · cases ho : o (osPathJoin TRAINING_IMAGES_DIR item) with
    | ok u =>
      cases u
      rw [processEntry_ok o item hx ho] at hpe
      cases hpe
      exact ⟨hitem, hx, Or.inl ⟨rfl, rfl, ho⟩⟩
    | error e =>
      rw [processEntry_error o item e hx ho] at hpe
      cases hpe
      exact ⟨hitem, hx, Or.inr ⟨rfl, e, rfl, ho⟩⟩
  · rw [processEntry_not_image o item (by simpa using hx)] at hpe
    cases hpe

theorem scanItems_congr (o1 o2 : String → Except String Unit) (items : List String)
    (h : ∀ p, o1 p = o2 p) : scanItems o1 items = scanItems o2 items := by
  induction items with
  | nil => rfl
  | cons x xs ih =>
    rw [scanItems, scanItems, List.filterMap_cons, List.filterMap_cons]
    rw [scanItems, scanItems] at ih
    rw [ih, processEntry, processEntry, h (osPathJoin TRAINING_IMAGES_DIR x)]

theorem main_script_eq (env : GpuEnv) (fs : FileSystem) (gl : List String)
    (h : check_gpu env = Except.ok gl) :
    main_script env fs = Except.ok
      (["--- ML Trainer Script Starting ---", "TensorFlow version: " ++ env.tfVersion]
        ++ gl ++ list_training_images fs ++ placeholderLines ++ [finishedLine]) := by
  simp [main_script, h]

theorem main_script_finishes (env : GpuEnv) (fs : FileSystem) (gl : List String)
    (h : check_gpu env = Except.ok gl) : reachesFinish (main_script env fs) :=
  ⟨_, main_script_eq env fs gl h, List.getLast?_concat _⟩

theorem setAllMemGrowth_okOrRuntime (m : String → Except PyExc Unit)
    (gpus : List String) (h : ∀ g ∈ gpus, okOrRuntime (m g)) :
    okOrRuntime (setAllMemGrowth m gpus) := by
  induction gpus with
  | nil => trivial
  | cons g gs ih =>
    have hg := h g (List.mem_cons_self g gs)
    cases hm : m g with
    | ok u => simpa [setAllMemGrowth, hm] using ih (fun x hx => h x (List.mem_cons_of_mem g hx))
    | error e =>
      rw [hm] at hg
      simpa [setAllMemGrowth, hm] using hg

theorem checkGpuTry_okOrRuntime (env : GpuEnv) (gpus : List String)
    (hm : ∀ g ∈ gpus, okOrRuntime (env.memGrowth g))
    (hl : okOrRuntime env.logicalGpus) :
    okOrRuntime (checkGpuTry env gpus) := by
  have h1 := setAllMemGrowth_okOrRuntime env.memGrowth gpus hm
  cases hs : setAllMemGrowth env.memGrowth gpus with
  | error e =>
    rw [hs] at h1
    cases e with
    | runtimeError m => simp [checkGpuTry, hs, okOrRuntime]
    | otherError m => exact absurd h1 (by simp [okOrRuntime])
  | ok u =>
    cases hlg : env.logicalGpus with
    | error e =>
      rw [hlg] at hl
      cases e with
      | runtimeError m => simp [checkGpuTry, hs, hlg, okOrRuntime]
      | otherError m => exact absurd hl (by simp [okOrRuntime])
    | ok l => simp [checkGpuTry, hs, hlg, okOrRuntime]

theorem check_gpu_ok (env : GpuEnv) (gpus : List String)
    (hg : env.physicalGpus = Except.ok gpus)
    (hm : ∀ g ∈ gpus, okOrRuntime (env.memGrowth g))
    (hl : okOrRuntime env.logicalGpus) :
    ∃ gl, check_gpu env = Except.ok gl := by
  have htry := checkGpuTry_okOrRuntime env gpus hm hl
  by_cases he : gpus.isEmpty = true
  · exact ⟨["TensorFlow: No GPUs available. Training will run on CPU."],
      by simp [check_gpu, hg, he]⟩
  · cases ht : checkGpuTry env gpus with
    | ok lines => exact ⟨lines, by simp [check_gpu, hg, he, ht]⟩
    | error e =>
      rw [ht] at htry
      cases e with
      | runtimeError msg => exact ⟨["Error setting memory growth: " ++ msg],
          by simp [check_gpu, hg, he, ht]⟩
      | otherError msg => exact absurd htry (by simp [okOrRuntime])

/- ### Claim theorems -/

/-- Claim C1: a filename is classified image-like exactly when its lowercased
form ends with one of `.png`, `.jpg`, `.jpeg`, `.gif`, `.bmp`, `.tiff`; the
match is case-insensitive and suffix-exact, so `photo.JPG` is included while
`notes.txt` and `archive.jpeg.bak` are excluded. -/
theorem image_like_iff (f : String) :
    (isImageFile f = true ↔
      (strEndsWith (strLower f) ".png" = true ∨
       strEndsWith (strLower f) ".jpg" = true ∨
       strEndsWith (strLower f) ".jpeg" = true ∨
       strEndsWith (strLower f) ".gif" = true ∨
       strEndsWith (strLower f) ".bmp" = true ∨
       strEndsWith (strLower f) ".tiff" = true))
    ∧ isImageFile "photo.JPG" = true
    ∧ isImageFile "notes.txt" = false
    ∧ isImageFile "archive.jpeg.bak" = false := by
  refine ⟨?_, by decide, by decide, by decide⟩
  simp [isImageFile, valid_extensions, List.any_cons, List.any_nil]

/-- Claim C3: when the directory does not exist, the scan reports the
directory-not-found condition, yields an empty report (no filenames, zero
count), prints the error line instead of raising, and the surrounding run
still reaches its end-of-run message. -/
theorem scan_dir_not_found (fs : FileSystem) (env : GpuEnv) (gl : List String)
    (h : fs.pathExists = false) (hgl : check_gpu env = Except.ok gl) :
    scan fs = ScanOutcome.dirNotFound ∧
    foundFiles (scan fs) = [] ∧ foundCount (scan fs) = 0 ∧
    list_training_images fs =
      [headerLine, "Error: Directory " ++ TRAINING_IMAGES_DIR ++ " does not exist."] ∧
    reachesFinish (main_script env fs) := by
  have hs : scan fs = ScanOutcome.dirNotFound := by simp [scan, h]
  refine ⟨hs, by simp [foundFiles, hs], by simp [foundCount, foundFiles, hs], ?_, ?_⟩
  · simp [list_training_images, hs]
  · exact main_script_finishes env fs gl hgl

/-- Witness for C3 at a missing directory and a healthy GPU runtime. -/
theorem scan_dir_not_found_witness :
    scan missingDirFs = ScanOutcome.dirNotFound ∧
    foundFiles (scan missingDirFs) = [] ∧ foundCount (scan missingDirFs) = 0 ∧
    list_training_images missingDirFs =
      [headerLine, "Error: Directory " ++ TRAINING_IMAGES_DIR ++ " does not exist."] ∧
    reachesFinish (main_script okGpuEnv missingDirFs) :=
  scan_dir_not_found missingDirFs okGpuEnv
    ["TensorFlow: 1 Physical GPUs, 1 Logical GPUs available.", "  GPU 0: gpu0"]
    rfl rfl

/-- Claim C6: when the directory listing itself raises, the scan reports the
listing failure, yields an empty report, prints the error line instead of
raising to the caller, and the surrounding run still reaches its end-of-run
message. -/
theorem scan_listing_failed (fs : FileSystem) (env : GpuEnv) (gl : List String)
    (e : String) (hp : fs.pathExists = true) (hl : fs.listdir = Except.error e)
    (hgl : check_gpu env = Except.ok gl) :
    scan fs = ScanOutcome.listingFailed e ∧
    foundFiles (scan fs) = [] ∧ foundCount (scan fs) = 0 ∧
    list_training_images fs = [headerLine, "Error listing images: " ++ e] ∧
    reachesFinish (main_script env fs) := by
  have hs : scan fs = ScanOutcome.listingFailed e := by simp [scan, hp, hl]
  refine ⟨hs, by simp [foundFiles, hs], by simp [foundCount, foundFiles, hs], ?_, ?_⟩
  · simp [list_training_images, hs]
  · exact main_script_finishes env fs gl hgl

/-- Witness for C6 at a directory whose read raises a permission error. -/
theorem scan_listing_failed_witness :
    scan unreadableDirFs = ScanOutcome.listingFailed "Permission denied" ∧
    foundFiles (scan unreadableDirFs) = [] ∧ foundCount (scan unreadableDirFs) = 0 ∧
    list_training_images unreadableDirFs =
      [headerLine, "Error listing images: " ++ "Permission denied"] ∧
    reachesFinish (main_script okGpuEnv unreadableDirFs) :=
  scan_listing_failed unreadableDirFs okGpuEnv
    ["TensorFlow: 1 Physical GPUs, 1 Logical GPUs available.", "  GPU 0: gpu0"]
    "Permission denied" rfl rfl rfl

/-- Claim C7: when the listing holds no image-suffixed entry, the report has
zero entries and the summary line states that no image files were found. -/
theorem scan_no_images (fs : FileSystem) (items : List String)
    (hp : fs.pathExists = true) (hl : fs.listdir = Except.ok items)
    (hno : items.filter (fun i => isImageFile i) = []) :
    scan fs = ScanOutcome.ok [] ∧ foundCount (scan fs) = 0 ∧
    list_training_images fs = [headerLine, "No image files found in the directory."] := by
  have hnil : scanItems fs.openImage items = [] := by
    have hn := scanItems_names fs.openImage items
    rw [hno] at hn
    exact List.map_eq_nil_iff.mp hn
  have hs : scan fs = ScanOutcome.ok [] := by rw [scan_ok fs items hp hl, hnil]
  refine ⟨hs, by simp [foundCount, foundFiles, hs], ?_⟩
  simp [list_training_images, hs, warningLines, summaryLines]

/-- Witness for C7 at a directory holding only non-image entries. -/
theorem scan_no_images_witness :
    scan noImagesFs = ScanOutcome.ok [] ∧ foundCount (scan noImagesFs) = 0 ∧
    list_training_images noImagesFs =
      [headerLine, "No image files found in the directory."] :=
  scan_no_images noImagesFs ["README.md", "labels.csv"] rfl rfl (by decide)

/-- Counterexample to claim C2 as stated: when the GPU enumeration itself
raises (it sits outside the `try` block of `check_gpu`), the exception is
not caught anywhere, so the run aborts and never prints its end-of-run
message. -/
theorem main_script_gpu_enum_fatal :
    main_script badGpuEnv emptyDirFs =
      Except.error (PyExc.otherError "device enumeration failed") := rfl

/-- Claim C2 (amended): if the initial GPU enumeration succeeds and every
failure inside the memory-growth configuration block is a `RuntimeError`
(the one class the `except` clause catches), then every error of the run is
caught where it occurs and converted to a printed message, and the run
reaches its end-of-run message.  Errors of the directory check, the listing
and the per-entry opens are always caught; an error from the GPU enumeration
itself, or a non-`RuntimeError` inside the configuration block, is fatal. -/
theorem main_script_reaches_finish (env : GpuEnv) (fs : FileSystem)
    (gpus : List String) (hg : env.physicalGpus = Except.ok gpus)
    (hm : ∀ g ∈ gpus, okOrRuntime (env.memGrowth g))
    (hl : okOrRuntime env.logicalGpus) :
    reachesFinish (main_script env fs) := by
  obtain ⟨gl, hgl⟩ := check_gpu_ok env gpus hg hm hl
  exact main_script_finishes env fs gl hgl

/-- Witness for amended C2 at a healthy runtime and an empty directory. -/
theorem main_script_reaches_finish_witness :
    reachesFinish (main_script okGpuEnv emptyDirFs) :=
  main_script_reaches_finish okGpuEnv emptyDirFs ["gpu0"] rfl
    (fun _ _ => trivial) trivial

/-- Claim C4: an image-suffixed entry whose content cannot be decoded is
still counted among the found files, receives an open-failure warning
attached to its filename, and the scan continues over the remaining
entries. -/
theorem scan_counts_undecodable (fs : FileSystem) (pre post : List String)
    (item e : String) (hp : fs.pathExists = true)
    (hl : fs.listdir = Except.ok (pre ++ item :: post))
    (him : isImageFile item = true)
    (ho : fs.openImage (osPathJoin TRAINING_IMAGES_DIR item) = Except.error e) :
    scan fs = ScanOutcome.ok
      (scanItems fs.openImage pre ++
        EntryResult.mk item false (some e) :: scanItems fs.openImage post) ∧
    item ∈ foundFiles (scan fs) ∧
    ("  Warning: Could not open or process image " ++ item ++ ": " ++ e) ∈
      warningLines (scanItems fs.openImage (pre ++ item :: post)) := by
  have hsplit : scanItems fs.openImage (pre ++ item :: post) =
      scanItems fs.openImage pre ++
        EntryResult.mk item false (some e) :: scanItems fs.openImage post := by
    simp [scanItems, List.filterMap_append, List.filterMap_cons,
      processEntry_error fs.openImage item e him ho]
  have hs : scan fs = ScanOutcome.ok
      (scanItems fs.openImage pre ++
        EntryResult.mk item false (some e) :: scanItems fs.openImage post) := by
    rw [scan_ok fs (pre ++ item :: post) hp hl, hsplit]
  refine ⟨hs, ?_, ?_⟩
  · rw [hs]
    simp [foundFiles]
  · rw [hsplit, warningLines]
    refine List.mem_filterMap.mpr ⟨⟨item, false, some e⟩, ?_, rfl⟩
    exact List.mem_append.mpr (Or.inr (List.mem_cons_self _ _))

/-- Witness for C4: a directory whose middle candidate is undecodable. -/
theorem scan_counts_undecodable_witness :
    scan brokenFs = ScanOutcome.ok
      (scanItems brokenFs.openImage ["a.png"] ++
        EntryResult.mk "broken.jpg" false (some "cannot identify image file") ::
          scanItems brokenFs.openImage ["b.png"]) ∧
    "broken.jpg" ∈ foundFiles (scan brokenFs) ∧
    ("  Warning: Could not open or process image " ++ "broken.jpg" ++ ": " ++
        "cannot identify image file") ∈
      warningLines (scanItems brokenFs.openImage
        (["a.png"] ++ "broken.jpg" :: ["b.png"])) :=
  scan_counts_undecodable brokenFs ["a.png"] ["b.png"] "broken.jpg"
    "cannot identify image file" rfl rfl (by decide) rfl

/-- Claim C5: with exactly fifteen image-suffixed entries in the listing, the
displayed prefix is exactly the first ten of them in listing order, followed
by a remainder note of five more. -/
theorem scan_fifteen_prefix (fs : FileSystem) (items : List String)
    (hp : fs.pathExists = true) (hl : fs.listdir = Except.ok items)
    (h15 : (items.filter (fun i => isImageFile i)).length = 15) :
    list_training_images fs =
      headerLine :: (warningLines (scanItems fs.openImage items) ++
        "Found 15 image(s):" ::
        (((items.filter (fun i => isImageFile i)).take 10).map (fun f => "  - " ++ f) ++
          ["  ... and 5 more."])) := by
  have hs := scan_ok fs items hp hl
  have hnames := scanItems_names fs.openImage items
  have hemp : (items.filter (fun i => isImageFile i)).isEmpty = false := by
    cases hfe : items.filter (fun i => isImageFile i) with
    | nil => rw [hfe] at h15; simp at h15
    | cons a l => rfl
  simp only [list_training_images, hs]
  rw [hnames]
  simp only [summaryLines, hemp, Bool.false_eq_true, if_false, h15,
    show ((15 : Nat) > 10) = True by norm_num, if_true]
  have e1 : ("Found " ++ toString (15 : Nat) ++ " image(s):") = "Found 15 image(s):" := by
    decide
  have e2 : ("  ... and " ++ toString ((15 : Nat) - 10) ++ " more.") =
      "  ... and 5 more." := by decide
  rw [e1, e2, List.cons_append]

/-- Witness for C5 at a directory with exactly fifteen image files. -/
theorem scan_fifteen_prefix_witness :
    list_training_images fifteenFs =
      headerLine :: (warningLines (scanItems fifteenFs.openImage fifteenItems) ++
        "Found 15 image(s):" ::
        (((fifteenItems.filter (fun i => isImageFile i)).take 10).map
            (fun f => "  - " ++ f) ++
          ["  ... and 5 more."])) :=
  scan_fifteen_prefix fifteenFs fifteenItems rfl rfl (by decide)

/-- Claim C8: with the same per-entry open outcomes, the found list is a
function of the listing: it equals the suffix-filtered listing in listing
order on both runs, so a permuted listing yields a permuted found list with
the same filename set and the same count, and an identical listing yields an
identical result (order can differ only as the listing order differs). -/
theorem scan_idempotent (fs1 fs2 : FileSystem) (l1 l2 : List String)
    (hp1 : fs1.pathExists = true) (hp2 : fs2.pathExists = true)
    (ho : ∀ p, fs1.openImage p = fs2.openImage p)
    (h1 : fs1.listdir = Except.ok l1) (h2 : fs2.listdir = Except.ok l2)
    (hperm : l1.Perm l2) :
    foundFiles (scan fs1) = l1.filter (fun i => isImageFile i) ∧
    foundFiles (scan fs2) = l2.filter (fun i => isImageFile i) ∧
    (foundFiles (scan fs1)).Perm (foundFiles (scan fs2)) ∧
    foundCount (scan fs1) = foundCount (scan fs2) ∧
    (scanItems fs1.openImage l1).Perm (scanItems fs2.openImage l2) := by
  have hf1 : foundFiles (scan fs1) = l1.filter (fun i => isImageFile i) := by
    rw [scan_ok fs1 l1 hp1 h1]
    exact scanItems_names _ _
  have hf2 : foundFiles (scan fs2) = l2.filter (fun i => isImageFile i) := by
    rw [scan_ok fs2 l2 hp2 h2]
    exact scanItems_names _ _
  have hpf := hperm.filter (fun i => isImageFile i)
  refine ⟨hf1, hf2, by rw [hf1, hf2]; exact hpf, ?_, ?_⟩
  · simp only [foundCount]
    rw [hf1, hf2]
    exact hpf.length_eq
  · rw [scanItems_congr fs1.openImage fs2.openImage l1 ho]
    exact hperm.filterMap (processEntry fs2.openImage)

/-- Witness for C8: the same directory contents listed in two orders. -/
theorem scan_idempotent_witness :
    foundFiles (scan permFsA) = (["b.png", "a.png"].filter (fun i => isImageFile i)) ∧
    foundFiles (scan permFsB) = (["a.png", "b.png"].filter (fun i => isImageFile i)) ∧
    (foundFiles (scan permFsA)).Perm (foundFiles (scan permFsB)) ∧
    foundCount (scan permFsA) = foundCount (scan permFsB) ∧
    (scanItems permFsA.openImage ["b.png", "a.png"]).Perm
      (scanItems permFsB.openImage ["a.png", "b.png"]) :=
  scan_idempotent permFsA permFsB ["b.png", "a.png"] ["a.png", "b.png"]
    rfl rfl (fun _ => rfl) rfl rfl (List.Perm.swap "a.png" "b.png" [])

/-- Claim C9: on a readable directory the scan result carries, per retained
entry, the filename, a boolean openable outcome and an optional error
message, alongside the ordered filename list and the total count: the names
are the suffix-filtered listing in order, the count is their number, the
openable flag is true exactly when the open succeeded, and the message is
present exactly on failure, holding that failure's message. -/
theorem scan_report_fields (fs : FileSystem) (items : List String)
    (hp : fs.pathExists = true) (hl : fs.listdir = Except.ok items) :
    scan fs = ScanOutcome.ok (scanItems fs.openImage items) ∧
    (scanItems fs.openImage items).map EntryResult.name =
      items.filter (fun i => isImageFile i) ∧
    foundCount (scan fs) = (items.filter (fun i => isImageFile i)).length ∧
    ∀ ent ∈ scanItems fs.openImage items,
      (ent.openable = true ↔
        fs.openImage (osPathJoin TRAINING_IMAGES_DIR ent.name) = Except.ok ()) ∧
      (ent.errMsg = none ↔ ent.openable = true) ∧
      ∀ m, ent.errMsg = some m →
        fs.openImage (osPathJoin TRAINING_IMAGES_DIR ent.name) = Except.error m := by
  have hs := scan_ok fs items hp hl
  refine ⟨hs, scanItems_names _ _, ?_, ?_⟩
  · simp only [foundCount, hs]
    rw [show foundFiles (ScanOutcome.ok (scanItems fs.openImage items)) =
          (scanItems fs.openImage items).map EntryResult.name from rfl,
        scanItems_names]
  · intro ent hent
    rcases mem_scanItems fs.openImage items ent hent with ⟨hmem, him, hcase⟩
    rcases hcase with ⟨hop, hmsg, hok⟩ | ⟨hop, e, hmsg, herr⟩
    · refine ⟨by simp [hop, hok], by simp [hmsg, hop], ?_⟩
      intro m hm
      rw [hmsg] at hm
      cases hm
    · refine ⟨by simp [hop, herr], by simp [hmsg, hop], ?_⟩
      intro m hm
      rw [hmsg] at hm
      cases hm
      exact herr

/-- Witness for C9 at a mixed directory (one good image, one image-suffixed
entry that fails to open, one non-image entry), checking the per-entry
fields at the failing entry. -/
theorem scan_report_fields_witness :
    scan mixedFs = ScanOutcome.ok
      (scanItems mixedFs.openImage ["good.jpg", "sub.png", "doc.txt"]) ∧
    (scanItems mixedFs.openImage ["good.jpg", "sub.png", "doc.txt"]).map
        EntryResult.name =
      (["good.jpg", "sub.png", "doc.txt"].filter (fun i => isImageFile i)) ∧
    foundCount (scan mixedFs) =
      (["good.jpg", "sub.png", "doc.txt"].filter (fun i => isImageFile i)).length ∧
    ((EntryResult.mk "sub.png" false (some "IsADirectoryError")).openable = true ↔
      mixedFs.openImage (osPathJoin TRAINING_IMAGES_DIR
        (EntryResult.mk "sub.png" false (some "IsADirectoryError")).name) =
        Except.ok ()) := by
  have h := scan_report_fields mixedFs ["good.jpg", "sub.png", "doc.txt"] rfl rfl
  exact ⟨h.1, h.2.1, h.2.2.1,
    (h.2.2.2 ⟨"sub.png", false, some "IsADirectoryError"⟩ (by decide)).1⟩

/-- Claim C10: classification is by name only: the found-name list does not
depend on the per-entry open outcomes and equals the suffix-filtered listing,
and an image-suffixed entry whose open attempt fails (such as a subdirectory
bearing an image suffix) is still a found entry, recorded with its
open-failure warning only. -/
theorem classification_by_name_only (o1 o2 : String → Except String Unit)
    (items : List String) :
    (scanItems o1 items).map EntryResult.name =
      (scanItems o2 items).map EntryResult.name ∧
    (scanItems o1 items).map EntryResult.name =
      items.filter (fun i => isImageFile i) ∧
    ∀ item e, item ∈ items → isImageFile item = true →
      o1 (osPathJoin TRAINING_IMAGES_DIR item) = Except.error e →
      EntryResult.mk item false (some e) ∈ scanItems o1 items := by
  refine ⟨?_, scanItems_names o1 items, ?_⟩
  · rw [scanItems_names, scanItems_names]
  · intro item e hmem him ho
    rw [scanItems]
    exact List.mem_filterMap.mpr ⟨item, hmem, processEntry_error o1 item e him ho⟩

/-- Witness for C10: an image-suffixed subdirectory is still found and
carries its open-failure record. -/
theorem classification_by_name_only_witness :
    (scanItems subdirOpen ["good.jpg", "sub.png", "doc.txt"]).map EntryResult.name =
      (scanItems (fun _ => Except.ok ())
        ["good.jpg", "sub.png", "doc.txt"]).map EntryResult.name ∧
    (scanItems subdirOpen ["good.jpg", "sub.png", "doc.txt"]).map EntryResult.name =
      (["good.jpg", "sub.png", "doc.txt"].filter (fun i => isImageFile i)) ∧
    EntryResult.mk "sub.png" false (some "IsADirectoryError") ∈
      scanItems subdirOpen ["good.jpg", "sub.png", "doc.txt"] := by
  have h := classification_by_name_only subdirOpen (fun _ => Except.ok ())
    ["good.jpg", "sub.png", "doc.txt"]
  exact ⟨h.1, h.2.1,
    h.2.2 "sub.png" "IsADirectoryError" (by decide) (by decide) rfl⟩

end MLTrainer
